import Mathlib

/-!
Verification development for the DEFRA ai-sdlc-codereview-api review-processing
pipeline.  The Python sources under `app/agents/code_reviews_agent.py`,
`app/agents/git_repos_agent.py` and `app/utils/anthropic_client.py` are shallowly
embedded as pure Lean functions: environment reads, database reads, model calls
and exceptions become explicit parameters, oracles, `Except` values and traces.
-/

namespace CodeReviewApi

/-! ## String helpers (executable models of the Python string operations used) -/

/-- Decides (as `listIsPrefix p l`) whether `p` is a prefix of `l` (model for
Python prefix tests used below). -/
def listIsPrefix : List Char → List Char → Bool
  | [], _ => true
  | _ :: _, [] => false
  | a :: as, b :: bs => a == b && listIsPrefix as bs

/-- Decides (as `listIsInfix n l`) whether `n` occurs contiguously inside `l`
(model of the Python `needle in haystack` substring test). -/
def listIsInfix (n : List Char) : List Char → Bool
  | [] => n.isEmpty
  | c :: rest => listIsPrefix n (c :: rest) || listIsInfix n rest

/-- Model of the Python substring test `needle in haystack`. -/
def pyIn (needle haystack : String) : Bool :=
  listIsInfix needle.data haystack.data

/-- Model of Python `s.endswith(suffix)`. -/
def pyEndsWith (s suffix : String) : Bool :=
  listIsPrefix suffix.data.reverse s.data.reverse

/-- Model of Python `s.lower()` (ASCII lower-casing suffices for the
configuration values compared here). -/
def pyLower (s : String) : String :=
  String.mk (s.data.map Char.toLower)

/-- Model of Python `s.strip()` (drop leading and trailing whitespace). -/
def pyStrip (s : String) : String :=
  String.mk (((s.data.dropWhile Char.isWhitespace).reverse.dropWhile
    Char.isWhitespace).reverse)

/-- Split a character list at every `','`, keeping empty segments, as Python
`s.split(",")` does (in particular `"".split(",") == [""]`). -/
def splitCommaList : List Char → List (List Char)
  | [] => [[]]
  | c :: rest =>
    let r := splitCommaList rest
    if c == ',' then [] :: r
    else
      match r with
      | h :: t => (c :: h) :: t
      | [] => [[c]]

/-- Model of Python `s.split(",")`. -/
def pySplitComma (s : String) : List String :=
  (splitCommaList s.data).map String.mk

/-- Concatenation of a list of strings in order (the stream of `f.write` calls). -/
def concatStrs : List String → String
  | [] => ""
  | s :: rest => s ++ concatStrs rest

theorem string_data_inj : ∀ {a b : String}, a.data = b.data → a = b := by
  intro a b h
  cases a
  cases b
  simp_all

theorem string_append_data (a b : String) : (a ++ b).data = a.data ++ b.data := by
  cases a
  cases b
  rfl

theorem string_append_assoc (a b c : String) : a ++ b ++ c = a ++ (b ++ c) := by
  apply string_data_inj
  simp [string_append_data]

theorem string_empty_append (s : String) : "" ++ s = s := by
  apply string_data_inj
  simp [string_append_data]

theorem string_append_empty (s : String) : s ++ "" = s := by
  apply string_data_inj
  simp [string_append_data]

theorem concatStrs_append (l₁ l₂ : List String) :
    concatStrs (l₁ ++ l₂) = concatStrs l₁ ++ concatStrs l₂ := by
  induction l₁ with
  | nil => simp [concatStrs, string_empty_append]
  | cons s rest ih => simp [concatStrs, ih, string_append_assoc]

/-- The empty string is a substring of every string (`"" in s` is `True` in
Python). -/
theorem pyIn_empty (s : String) : pyIn "" s = true := by
  unfold pyIn
  cases s.data with
  | nil => rfl
  | cons c rest => simp [listIsInfix, listIsPrefix]

/-! ## `app/agents/git_repos_agent.py` -/

/-- Source constant `EXCLUDED_FILES` from `git_repos_agent.py`: binary-file extensions and
package lock filenames (a Python `set`; order is irrelevant because it is only
consumed through `any`). -/
def EXCLUDED_FILES : List String :=
  [".png", ".jpg", ".jpeg", ".gif", ".pdf", ".zip",
   "package-lock.json", "yarn.lock", "pnpm-lock.yaml",
   "poetry.lock", "Pipfile.lock", "composer.lock",
   "Gemfile.lock", "cargo.lock", "packages.lock.json"]

/-- Source constant `EXCLUDED_DIRS` from `git_repos_agent.py`. -/
def EXCLUDED_DIRS : List String :=
  [".git", "node_modules", "__pycache__", ".venv", "venv"]

/-- The file-exclusion test of `flatten_repository` (line 59):
`any(file.endswith(ext) for ext in EXCLUDED_FILES) or
any(file == excluded for excluded in EXCLUDED_FILES)`. -/
def isExcludedFile (file : String) : Bool :=
  EXCLUDED_FILES.any (fun ext => pyEndsWith file ext) ||
    EXCLUDED_FILES.any (fun excluded => file == excluded)

/-- A directory tree as seen by `os.walk`: files carry `some content` when they
decode as UTF-8 text and `none` when `source_file.read()` raises
`UnicodeDecodeError`. -/
inductive FsEntry where
  | file (name : String) (content : Option String)
  | dir (name : String) (children : List FsEntry)

/-- The bytes `flatten_repository` writes for one file of directory `rel`
(lines 57-71): excluded files are skipped; otherwise the marker line
`\n# File: <relative path>\n` is written first, then the decoded content and a
trailing newline; when decoding fails only the already-written marker remains
and the file is otherwise skipped (warning, not failure). -/
def fileChunk (rel name : String) (content : Option String) : String :=
  if isExcludedFile name then ""
  else
    match content with
    | some text => "\n# File: " ++ (rel ++ name) ++ "\n" ++ text ++ "\n"
    | none => "\n# File: " ++ (rel ++ name) ++ "\n"

mutual

/-- The writes `flatten_repository` performs for the files of the current
`os.walk` root (files are visited before subdirectories). -/
def flattenFiles (rel : String) : List FsEntry → String
  | [] => ""
  | FsEntry.file name content :: rest => fileChunk rel name content ++ flattenFiles rel rest
  | FsEntry.dir _ _ :: rest => flattenFiles rel rest

/-- The writes `flatten_repository` performs while descending into the
subdirectories of the current root; directories in `EXCLUDED_DIRS` are pruned
from `dirs` in place (line 55) before being descended into. -/
def flattenDirs (rel : String) : List FsEntry → String
  | [] => ""
  | FsEntry.file _ _ :: rest => flattenDirs rel rest
  | FsEntry.dir name children :: rest =>
    (if EXCLUDED_DIRS.contains name then ""
     else flattenFiles (rel ++ name ++ "/") children ++
       flattenDirs (rel ++ name ++ "/") children) ++ flattenDirs rel rest

end

/-- Model of `flatten_repository` (lines 48-71): the full artifact text, i.e. the
concatenation of all writes in `os.walk` order starting at the repository
root. -/
def flatten_repository (entries : List FsEntry) : String :=
  flattenFiles "" entries ++ flattenDirs "" entries

mutual

/-- The files of the current root in visit order, as
`(directory prefix, filename, decoded content)` triples. -/
def walkFiles (rel : String) : List FsEntry → List (String × String × Option String)
  | [] => []
  | FsEntry.file name content :: rest => (rel, name, content) :: walkFiles rel rest
  | FsEntry.dir _ _ :: rest => walkFiles rel rest

/-- The files reached through non-pruned subdirectories, in visit order. -/
def walkDirs (rel : String) : List FsEntry → List (String × String × Option String)
  | [] => []
  | FsEntry.file _ _ :: rest => walkDirs rel rest
  | FsEntry.dir name children :: rest =>
    (if EXCLUDED_DIRS.contains name then []
     else walkFiles (rel ++ name ++ "/") children ++
       walkDirs (rel ++ name ++ "/") children) ++ walkDirs rel rest

end

/-- All files `os.walk` reaches (excluded directories pruned), in visit order. -/
def walk (entries : List FsEntry) : List (String × String × Option String) :=
  walkFiles "" entries ++ walkDirs "" entries

/-- The chunk a walked file contributes to the artifact. -/
def chunkOf : String × String × Option String → String
  | (rel, name, content) => fileChunk rel name content

theorem flattenFiles_eq_walkFiles (rel : String) (es : List FsEntry) :
    flattenFiles rel es = concatStrs ((walkFiles rel es).map chunkOf) := by
  induction es with
  | nil => rfl
  | cons e rest ih =>
    cases e with
    | file name content => simp [flattenFiles, walkFiles, concatStrs, chunkOf, ih]
    | dir name children => simp [flattenFiles, walkFiles, ih]

theorem flattenDirs_eq_walkDirs :
    ∀ (es : List FsEntry) (rel : String),
      flattenDirs rel es = concatStrs ((walkDirs rel es).map chunkOf)
  | [], rel => by simp [flattenDirs, walkDirs, concatStrs]
  | FsEntry.file _ _ :: rest, rel => by
    simp [flattenDirs, walkDirs, flattenDirs_eq_walkDirs rest rel]
  | FsEntry.dir name children :: rest, rel => by
    by_cases h : name ∈ EXCLUDED_DIRS
    · simp [flattenDirs, walkDirs, h, flattenDirs_eq_walkDirs rest rel, concatStrs,
        string_empty_append]
    · simp [flattenDirs, walkDirs, h, flattenDirs_eq_walkDirs rest rel,
        flattenDirs_eq_walkDirs children (rel ++ (name ++ "/")),
        flattenFiles_eq_walkFiles, concatStrs_append, string_append_assoc]

/-- The artifact is exactly the concatenation of the chunks of the walked
files. -/
theorem flatten_repository_eq_walk (entries : List FsEntry) :
    flatten_repository entries = concatStrs ((walk entries).map chunkOf) := by
  simp [flatten_repository, walk, flattenFiles_eq_walkFiles, flattenDirs_eq_walkDirs,
    concatStrs_append]

/-- Model of Python `os.path.basename`: the component after the last `/`. -/
def os_path_basename (p : String) : String :=
  String.mk (((p.data.reverse.takeWhile (fun c => c != '/')).reverse))

/-- Remove every (non-overlapping, left-to-right) occurrence of `".git"`:
model of `repository_url_basename.replace('.git', '')` in
`process_repositories` (line 120). -/
def stripGitAll : List Char → List Char
  | '.' :: 'g' :: 'i' :: 't' :: rest => stripGitAll rest
  | c :: rest => c :: stripGitAll rest
  | [] => []

/-- Model of `repo_name = os.path.basename(repository_url).replace('.git', '')`
(`process_repositories`, line 120). -/
def repo_name (repository_url : String) : String :=
  String.mk (stripGitAll (os_path_basename repository_url).data)

/-- The flattened-artifact path `CODEBASE_DIR / f"{repo_name}.txt"` computed by
`process_repositories` (line 121), with `CODEBASE_DIR = /app/data/codebase`. -/
def codebase_file_path (repository_url : String) : String :=
  "/app/data/codebase/" ++ repo_name repository_url ++ ".txt"

/-- The artifact path used by the run of `process_code_review(review_id, ...)`:
line 340 calls `process_repositories(repository_url)`, passing only the URL, so
the path a given review writes its artifact to is `codebase_file_path` of its
URL; the review id does not enter the computation. -/
def artifact_path (review_id repository_url : String) : String :=
  codebase_file_path repository_url

/-! ## `app/agents/code_reviews_agent.py` -/

/-- A `Standard` catalog document as consumed by the standards query and the
Compliance Evaluator.  `classification_ids = none` models a missing or null
field; `some []` models the empty list. -/
structure Standard where
  id : String
  standard_set_id : String
  text : String
  repository_path : String
  classification_ids : Option (List String)
deriving DecidableEq

/-- Source class `CodeReviewConfig` (lines 61-70). -/
structure CodeReviewConfig where
  llm_testing : Bool
  testing_files : List String
deriving DecidableEq

/-- Model of `CodeReviewConfig.__init__`: reads `LLM_TESTING` (default `"false"`,
lower-cased, compared with `"true"`) and, only when testing is enabled, splits
`LLM_TESTING_STANDARDS_FILES` (default `""`) on commas. -/
def mkCodeReviewConfig (env_LLM_TESTING env_LLM_TESTING_STANDARDS_FILES : Option String) :
    CodeReviewConfig :=
  let llm_testing := pyLower (env_LLM_TESTING.getD "false") == "true"
  { llm_testing := llm_testing
    testing_files :=
      if llm_testing then pySplitComma (env_LLM_TESTING_STANDARDS_FILES.getD "") else [] }

/-- Model of `filter_standards` (lines 73-106): when `LLM_TESTING` is off the list is
returned unchanged; otherwise a standard is kept exactly when its
`repository_path` contains some stripped allow-list entry as a substring. -/
def filter_standards (standards : List Standard) (config : CodeReviewConfig) :
    List Standard :=
  if !config.llm_testing then standards
  else
    standards.filter (fun standard =>
      config.testing_files.any (fun test_file =>
        pyIn (pyStrip test_file) standard.repository_path))

/-- Model of `generate_user_prompt` (lines 109-169): the f-string template with the
standard id, standard text and codebase content interpolated. -/
def generate_user_prompt (standard : Standard) (codebase_content : String) : String :=
  "Given the standard below:\n## Standard " ++ standard.id ++ "\n" ++ standard.text ++
  "\n\nCompare the entire codebase of the submitted repository below, to assess how well the standard is adhered to:\n" ++
  codebase_content ++
  "\n\nDetermine if the codebase as a whole is compliant (true/false).\nList specific files/sections in the codebase that are relevant to the standard (if any).\nIf non-compliant, provide concise recommendations - 1-2 sentences.\nConsider dependencies and interactions between different parts of the code.\n\nGenerate a informative but concise compliance report using this format:\n\nReplace the <span style=\"color: [COLOUR]\"> with the appropriate hash code of the colour for the compliance status detailed below.\nYes = #00703c, No = #d4351c, Partially = #1d70b8\n\n## Standard: [Standard Title from the standard text]\n\nCompliant: <span style=\"color: [COLOUR]\">**[Yes/No/Partially]**</span>\n\nRelevant Files/Sections:\n- [file/path/1]\n- [file/path/2]\n\n[Describe how the codebase implements or fails to implement this standard - keep this informative and concise]\n[If partially compliant or non-compliant, explain specific issues - keep this informative and concise]\n\n## [Standard Category 2]\n\n[...repeat format for each standard...]\n\n## Specific Recommendations\n\n- [Describe specific change needed]\n- [Additional action items as needed]\n"

/-- Model of `process_standards` (lines 172-213) with the remote model abstracted as a
pure function from user prompt to response text: one `create_message` call per
standard, in order, collecting the per-standard report texts. -/
def process_standards (model : String → String) (standards : List Standard)
    (codebase_content : String) : List String :=
  standards.map (fun standard => model (generate_user_prompt standard codebase_content))

/-- The user prompts `process_standards` sends to the model, in call order:
the model-call trace of one evaluator run. -/
def process_standards_calls (standards : List Standard) (codebase_content : String) :
    List String :=
  standards.map (fun standard => generate_user_prompt standard codebase_content)

/-- Model of `generate_report_header` (lines 235-256) with `datetime.now()` made an
explicit `current_time` argument: the code formats the wall clock at the moment
of the call into the `Date:` line. -/
def generate_report_header (standard_set_name : String)
    (classification_names : List String) (current_time : String) : String :=
  ("# " ++ standard_set_name ++ " Code Review\nDate: ") ++ current_time ++
    ("\nMatched Classifications: " ++
      (if classification_names.isEmpty then "None"
       else String.intercalate ", " classification_names) ++ "\n\n")

/-- The combined report text built by `check_compliance` (lines 281-304):
header, the per-standard reports of the *filtered* standards joined with blank
lines, and the closing `## Specific Recommendations` section.  The remote model
and the wall clock are explicit parameters; the standards passed in are first
run through `filter_standards` with the ambient `CodeReviewConfig`. -/
def check_compliance_text (model : String → String) (codebase_content : String)
    (standards : List Standard) (standard_set_name : String)
    (classification_names : List String) (current_time : String)
    (config : CodeReviewConfig) : String :=
  let filtered_standards := filter_standards standards config
  let reports := process_standards model filtered_standards codebase_content
  let header := generate_report_header standard_set_name classification_names current_time
  header ++ String.intercalate "\n\n" reports ++ "\n\n## Specific Recommendations\n\n"

/-- The model-call trace of one `check_compliance` run: exactly the prompts of
the standards that survive `filter_standards`. -/
def check_compliance_calls (codebase_content : String) (standards : List Standard)
    (config : CodeReviewConfig) : List String :=
  process_standards_calls (filter_standards standards config) codebase_content

/-- Source enum `ReviewStatus` (from `app/models/code_review.py`, as used by the agent). -/
inductive ReviewStatus where
  | pending
  | in_progress
  | completed
  | failed
deriving DecidableEq

/-- A `compliance_reports` entry as assembled at lines 399-404. -/
structure ComplianceReport where
  standard_set_name : String
  file : String
  report : String
deriving DecidableEq

/-- Hexadecimal digit test for ObjectId strings. -/
def isHexChar (c : Char) : Bool :=
  c.isDigit || ('a' ≤ c && c ≤ 'f') || ('A' ≤ c && c ≤ 'F')

/-- A valid BSON ObjectId string: exactly 24 hexadecimal characters. -/
def isValidObjectId (s : String) : Bool :=
  s.length == 24 && s.data.all isHexChar

/-- Modelled from the spec: `app/utils/id_validation.ensure_object_id` is not
under `src/` (only its unit tests, `src/tests/unit/test_id_validation.py`, are).
Per those tests and spec §8, a valid ObjectId string converts, and an invalid
string raises `ValueError("Invalid ObjectId format...")`, which the per-set
handler of `process_code_review` catches.  (Either failure mode — a raise here
or the falsy check at line 359 — skips the standard set.) -/
def ensure_object_id (s : String) : Except String String :=
  if isValidObjectId s then Except.ok s
  else Except.error ("Invalid ObjectId format: " ++ s)

/-- Model of `pathlib.Path.parent`: everything before the last `/` (or `.`
when there is no separator). -/
def os_path_parent (p : String) : String :=
  match p.data.reverse.dropWhile (fun c => c != '/') with
  | '/' :: rest => String.mk rest.reverse
  | _ => "."

/-- The MongoDB standards query built at lines 370-381, as a predicate on one
catalog document: `standard_set_id` must equal the requested set, and the
`classification_ids` array must either contain one of the matched
classification ids, or be empty (`$size: 0`), missing (`$exists: false`) or
null (`classification_ids: None`). -/
def matchesStandardsQuery (standard_set_id : String) (matching_classification_ids : List String)
    (standard : Standard) : Bool :=
  standard.standard_set_id == standard_set_id &&
    ((match standard.classification_ids with
      | some cids => cids.any (fun cid => matching_classification_ids.contains cid)
      | none => false) ||
     (match standard.classification_ids with
      | some cids => cids.isEmpty
      | none => true))

/-- The external world of one `process_code_review` run, as pure oracles:
database catalogs, and the outcomes of the fallible stages.
`db_ok = false` models `get_database()` / `CodeReviewRepository(...)` raising
(lines 333-334, before the local `repo` is bound); `acquisition` is the result
of `process_repositories` (clone + flatten), `classification` the result of the
classification fetch plus `analyze_codebase_classifications` (lines 340-351);
`standard_sets_find_one id` is `db.standard_sets.find_one` keyed by id
(returning the set's optional `name` field); `evalOutcome id` abstracts the
whole `check_compliance` call for one standard set (report text, or the raised
error's message). -/
structure OrchestratorEnv where
  db_ok : Bool
  acquisition : Except String String
  classification : Except String (List String)
  standard_sets_find_one : String → Option (Option String)
  standards_catalog : List Standard
  evalOutcome : String → Except String String

/-- The outcome of the per-standard-set `try` block (lines 356-409). -/
inductive SetOutcome where
  | skipInvalidId
  | skipNotFound
  | skipNoStandards
  | skipEvalError (msg : String)
  | ok (r : ComplianceReport)
deriving DecidableEq

/-- One iteration of the per-standard-set loop of `process_code_review`
(lines 355-409): invalid id format, missing standard-set record, empty
standards selection and `check_compliance` failure each end the iteration with
a logged skip (`continue`); otherwise a `ComplianceReport` entry is built from
the set's name (`get("name", "Unknown")`), the report-file path
(`codebase_file.parent / f"{review_id}-{standard_set_name}.md"`) and the report
text. -/
def process_standard_set (env : OrchestratorEnv) (review_id : String)
    (matching_classification_ids : List String) (codebase_dir : String)
    (standard_set_id : String) : SetOutcome :=
  match ensure_object_id standard_set_id with
  | Except.error _ => SetOutcome.skipInvalidId
  | Except.ok object_id =>
    match env.standard_sets_find_one object_id with
    | none => SetOutcome.skipNotFound
    | some name_field =>
      let standards := env.standards_catalog.filter
        (matchesStandardsQuery object_id matching_classification_ids)
      if standards.isEmpty then SetOutcome.skipNoStandards
      else
        match env.evalOutcome standard_set_id with
        | Except.error msg => SetOutcome.skipEvalError msg
        | Except.ok report_text =>
          let standard_set_name := name_field.getD "Unknown"
          SetOutcome.ok
            { standard_set_name := standard_set_name
              file := codebase_dir ++ "/" ++ review_id ++ "-" ++ standard_set_name ++ ".md"
              report := report_text }

/-- The report, if any, a set outcome appends to `compliance_reports`. -/
def SetOutcome.toReport : SetOutcome → Option ComplianceReport
  | SetOutcome.ok r => some r
  | _ => none

/-- Python exceptions escaping `process_code_review`. -/
inductive PyError where
  | processingError (msg : String)
  | unboundLocalError (msg : String)
deriving DecidableEq

/-- One `repo.update_status` call: the status written and, for the
`COMPLETED` call (line 412), the attached `compliance_reports` list. -/
abbrev StatusUpdate := ReviewStatus × Option (List ComplianceReport)

/-- Model of `process_code_review` (lines 316-426): returns the run's outcome (normal
return or escaped exception) together with the ordered trace of
`repo.update_status` writes.  Control flow follows the source: if obtaining the
database connection or constructing the repository handle raises, the
`except` handler at line 416 evaluates `repo.update_status` with `repo` still
unbound and itself raises `UnboundLocalError` — no status is ever written;
once `repo` is bound, a failure of acquisition or classification hits the
handler, which writes `FAILED` (no reports) and re-raises the error wrapped as
`ProcessingError(f"Failed to process code review: {str(e)}")`; otherwise the
per-set loop runs, its per-set failures are contained, and `COMPLETED` is
written with the accumulated reports. -/
def process_code_review (env : OrchestratorEnv) (review_id : String)
    (standard_sets : List String) : Except PyError Unit × List StatusUpdate :=
  if !env.db_ok then
    (Except.error (PyError.unboundLocalError
      "cannot access local variable repo where it is not associated with a value"), [])
  else
    match env.acquisition with
    | Except.error msg =>
      (Except.error (PyError.processingError ("Failed to process code review: " ++ msg)),
       [(ReviewStatus.in_progress, none), (ReviewStatus.failed, none)])
    | Except.ok codebase_file =>
      match env.classification with
      | Except.error msg =>
        (Except.error (PyError.processingError ("Failed to process code review: " ++ msg)),
         [(ReviewStatus.in_progress, none), (ReviewStatus.failed, none)])
      | Except.ok matching_classification_ids =>
        let outcomes := standard_sets.map
          (process_standard_set env review_id matching_classification_ids
            (os_path_parent codebase_file))
        let compliance_reports := outcomes.filterMap SetOutcome.toReport
        (Except.ok (),
         [(ReviewStatus.in_progress, none),
          (ReviewStatus.completed, some compliance_reports)])

/-! ## `app/utils/anthropic_client.py` -/

/-- One entry of the API response's `content` array; `text = none` models a
block without a `.text` attribute (accessing it raises `AttributeError`). -/
structure ContentBlock where
  text : Option String
deriving DecidableEq

/-- The outcome of `client.messages.create(...)` (lines 113-119): either the
call raises, or it returns a response whose body is a `content` array. -/
inductive ApiOutcome where
  | failure (msg : String)
  | success (content : List ContentBlock)

/-- The `response.content[0].text` access (line 122): `none` when the array is
empty (`IndexError`) or the first block has no text (`AttributeError`). -/
def extract_response_text (content : List ContentBlock) : Option String :=
  match content with
  | [] => none
  | block :: _ => block.text

/-- Model of `AnthropicClient.create_message` (lines 86-129), result semantics: an API
failure is logged and re-raised to the caller (lines 127-129); a successful
call whose body yields no text returns `""` (lines 121-125); otherwise the
extracted text is returned. -/
def create_message (api : ApiOutcome) : Except String String :=
  match api with
  | ApiOutcome.failure msg => Except.error msg
  | ApiOutcome.success content =>
    match extract_response_text content with
    | some text => Except.ok text
    | none => Except.ok ""

/-! ## Claim theorems -/

/-- C4 (counterexample): the claim says two reviews — in particular two reviews
of the same repository URL — never share a flattened-artifact path, because the
path is keyed by repository name *and* review id.  In the code the path is
`CODEBASE_DIR / f"{repo_name}.txt"`, computed from the URL alone: two distinct
reviews of the same URL get the same path. -/
theorem C4_counterexample :
    "review-A" ≠ "review-B" ∧
    artifact_path "review-A" "https://github.com/DEFRA/example.git"
      = artifact_path "review-B" "https://github.com/DEFRA/example.git" ∧
    artifact_path "review-A" "https://github.com/DEFRA/example.git"
      = "/app/data/codebase/example.txt" :=
  ⟨by decide, rfl, by decide⟩

/-- C4 (amended): the flattened-codebase artifact path is keyed by the
repository name alone — the review id never enters the computation.  Hence any
two reviews whose URLs have the same repository name (in particular two
concurrent reviews of the same URL) share the artifact path, while reviews of
repositories with distinct names get distinct paths. -/
theorem C4_artifact_path_keyed_by_repo_name_only
    (rid₁ rid₂ url₁ url₂ : String) :
    artifact_path rid₁ url₁ = "/app/data/codebase/" ++ repo_name url₁ ++ ".txt" ∧
    (repo_name url₁ = repo_name url₂ → artifact_path rid₁ url₁ = artifact_path rid₂ url₂) ∧
    (repo_name url₁ ≠ repo_name url₂ → artifact_path rid₁ url₁ ≠ artifact_path rid₂ url₂) := by
  refine ⟨rfl, ?_, ?_⟩
  · intro h
    simp [artifact_path, codebase_file_path, h]
  · intro h heq
    apply h
    apply string_data_inj
    have heq' := congrArg String.data heq
    simp only [artifact_path, codebase_file_path, string_append_data] at heq'
    rw [List.append_assoc, List.append_assoc] at heq'
    exact List.append_cancel_right (List.append_cancel_left heq')

/-- Witness for C4 (amended): two reviews of same-named repositories share the
path; distinct repository names give distinct paths. -/
theorem C4_witness :
    artifact_path "review-A" "https://github.com/DEFRA/example.git"
      = artifact_path "review-B" "https://github.com/other-org/example.git" ∧
    artifact_path "review-A" "https://github.com/DEFRA/example.git"
      ≠ artifact_path "review-B" "https://github.com/DEFRA/zzz.git" :=
  ⟨(C4_artifact_path_keyed_by_repo_name_only "review-A" "review-B"
      "https://github.com/DEFRA/example.git" "https://github.com/other-org/example.git").2.1
      (by decide),
   (C4_artifact_path_keyed_by_repo_name_only "review-A" "review-B"
      "https://github.com/DEFRA/example.git" "https://github.com/DEFRA/zzz.git").2.2
      (by decide)⟩

/-- C5: the standards selected for a standard set are exactly the catalog
entries whose `standard_set_id` equals the requested set id and whose
`classification_ids` either contains a matched classification id, or is the
empty list, or is missing/null — so universal standards are always included,
also when the matched set is empty. -/
theorem C5_standards_selection (catalog : List Standard) (standard_set_id : String)
    (matched : List String) (s : Standard) :
    s ∈ catalog.filter (matchesStandardsQuery standard_set_id matched) ↔
      s ∈ catalog ∧ s.standard_set_id = standard_set_id ∧
        ((∃ cids, s.classification_ids = some cids ∧ ∃ c, c ∈ cids ∧ c ∈ matched) ∨
         s.classification_ids = some [] ∨
         s.classification_ids = none) := by
  rw [List.mem_filter]
  refine and_congr_right fun _ => ?_
  unfold matchesStandardsQuery
  cases h : s.classification_ids with
  | none => simp [h]
  | some cids =>
    simp only [h, Bool.and_eq_true, Bool.or_eq_true, beq_iff_eq, List.any_eq_true,
      List.isEmpty_iff, Option.some.injEq, reduceCtorEq, or_false, exists_eq_left']
    constructor
    · rintro ⟨hset, hrest⟩
      refine ⟨hset, ?_⟩
      rcases hrest with ⟨c, hc, hcm⟩ | hnil
      · exact Or.inl ⟨c, hc, by simpa using hcm⟩
      · exact Or.inr hnil
    · rintro ⟨hset, hrest⟩
      refine ⟨hset, ?_⟩
      rcases hrest with ⟨c, hc, hcm⟩ | hnil
      · exact Or.inl ⟨c, hc, by simpa using hcm⟩
      · exact Or.inr hnil

/-- Witness for C5: a concrete catalog with a matching scoped standard, a
universal standard (empty and missing classification lists) and a
non-matching one. -/
theorem C5_witness :
    let sMatch : Standard :=
      { id := "s1", standard_set_id := "set1", text := "T1",
        repository_path := "p1", classification_ids := some ["c1", "c2"] }
    let sUniversalEmpty : Standard :=
      { id := "s2", standard_set_id := "set1", text := "T2",
        repository_path := "p2", classification_ids := some [] }
    let sUniversalMissing : Standard :=
      { id := "s3", standard_set_id := "set1", text := "T3",
        repository_path := "p3", classification_ids := none }
    let sOther : Standard :=
      { id := "s4", standard_set_id := "set1", text := "T4",
        repository_path := "p4", classification_ids := some ["c9"] }
    let catalog := [sMatch, sUniversalEmpty, sUniversalMissing, sOther]
    sMatch ∈ catalog.filter (matchesStandardsQuery "set1" ["c2"]) ∧
      sUniversalMissing ∈ catalog.filter (matchesStandardsQuery "set1" []) ∧
      sOther ∉ catalog.filter (matchesStandardsQuery "set1" ["c2"]) := by
  refine ⟨?_, ?_, ?_⟩
  · exact (C5_standards_selection _ _ _ _).mpr
      ⟨by decide, rfl, Or.inl ⟨["c1", "c2"], rfl, "c2", by decide, by decide⟩⟩
  · exact (C5_standards_selection _ _ _ _).mpr ⟨by decide, rfl, Or.inr (Or.inr rfl)⟩
  · intro hmem
    rcases (C5_standards_selection _ _ _ _).mp hmem with ⟨-, -, ⟨cids, hcids, c, hc, hcm⟩ | h | h⟩
    · have : cids = ["c9"] := by injection hcids with h; exact h.symm
      subst this
      simp_all
    · simp_all
    · simp_all

/-- C9: with `LLM_TESTING` enabled and `LLM_TESTING_STANDARDS_FILES` unset or
empty, `"".split(",")` yields `[""]`, the empty string (stripped) is a
substring of every `repository_path`, and `filter_standards` keeps every
standard — the cost-bounding filter silently filters nothing. -/
theorem C9_empty_allowlist_filters_nothing (env_files : Option String)
    (h : env_files = none ∨ env_files = some "") :
    (mkCodeReviewConfig (some "true") env_files).llm_testing = true ∧
    (mkCodeReviewConfig (some "true") env_files).testing_files = [""] ∧
    ∀ standards : List Standard,
      filter_standards standards (mkCodeReviewConfig (some "true") env_files) = standards := by
  have hconf : mkCodeReviewConfig (some "true") env_files
      = { llm_testing := true, testing_files := [""] } := by
    rcases h with h | h <;> subst h <;> rfl
  refine ⟨by rw [hconf], by rw [hconf], fun standards => ?_⟩
  rw [hconf]
  unfold filter_standards
  simp only [Bool.not_true, Bool.false_eq_true, if_false]
  exact List.filter_eq_self.mpr fun s _ => by
    simp [pyStrip, pyIn_empty]

/-- Witness for C9: a concrete two-standard list passes through the enabled
filter untouched when the allow-list variable is unset. -/
theorem C9_witness :
    filter_standards
      [{ id := "s1", standard_set_id := "set1", text := "T1",
         repository_path := "repo/file.py", classification_ids := none },
       { id := "s2", standard_set_id := "set1", text := "T2",
         repository_path := "other/path.py", classification_ids := none }]
      (mkCodeReviewConfig (some "true") none)
      = [{ id := "s1", standard_set_id := "set1", text := "T1",
           repository_path := "repo/file.py", classification_ids := none },
         { id := "s2", standard_set_id := "set1", text := "T2",
           repository_path := "other/path.py", classification_ids := none }] :=
  (C9_empty_allowlist_filters_nothing none (Or.inl rfl)).2.2 _

/-- C7: with the test mode enabled `filter_standards` keeps exactly the
standards whose `repository_path` contains some (stripped) allow-list entry;
with it disabled the list is returned unchanged.  The model-call trace of a
`check_compliance` run is one prompt per *kept* standard, and the combined
report text is a function of the kept standards only, so a dropped standard
triggers no model call and contributes nothing to the output report. -/
theorem C7_test_mode_filter (standards : List Standard) (config : CodeReviewConfig)
    (model : String → String) (codebase_content : String)
    (standard_set_name : String) (classification_names : List String)
    (current_time : String) :
    (config.llm_testing = false → filter_standards standards config = standards) ∧
    (config.llm_testing = true →
      ∀ s, s ∈ filter_standards standards config ↔
        s ∈ standards ∧ ∃ test_file ∈ config.testing_files,
          pyIn (pyStrip test_file) s.repository_path = true) ∧
    check_compliance_calls codebase_content standards config
      = (filter_standards standards config).map
          (fun s => generate_user_prompt s codebase_content) ∧
    check_compliance_text model codebase_content standards standard_set_name
        classification_names current_time config
      = check_compliance_text model codebase_content (filter_standards standards config)
          standard_set_name classification_names current_time config := by
  have hidem : filter_standards (filter_standards standards config) config
      = filter_standards standards config := by
    unfold filter_standards
    cases h : config.llm_testing with
    | false => simp
    | true =>
      simp only [Bool.not_true, Bool.false_eq_true, if_false]
      exact List.filter_eq_self.mpr fun s hs => (List.mem_filter.mp hs).2
  refine ⟨fun h => by simp [filter_standards, h], fun h s => ?_, rfl, ?_⟩
  · unfold filter_standards
    simp [h, List.mem_filter, List.any_eq_true]
  · unfold check_compliance_text
    rw [hidem]

/-- Witness for C7: the spec's concrete scenario — allow-list
`["repo/file.py"]`, one standard at `repo/file.py` and one at
`other/path.py`: exactly the first is kept and exactly one model call is
made. -/
theorem C7_witness :
    let s₁ : Standard :=
      { id := "s1", standard_set_id := "set1", text := "T1",
        repository_path := "repo/file.py", classification_ids := none }
    let s₂ : Standard :=
      { id := "s2", standard_set_id := "set1", text := "T2",
        repository_path := "other/path.py", classification_ids := none }
    let config := mkCodeReviewConfig (some "true") (some "repo/file.py")
    s₁ ∈ filter_standards [s₁, s₂] config ∧
      s₂ ∉ filter_standards [s₁, s₂] config ∧
      (check_compliance_calls "CODE" [s₁, s₂] config).length
        = (filter_standards [s₁, s₂] config).length := by
  refine ⟨?_, ?_, ?_⟩
  · exact ((C7_test_mode_filter [_, _] _ (fun _ => "R") "CODE" "Set" [] "t").2.1 rfl _).mpr
      ⟨by decide, "repo/file.py", by decide, by decide⟩
  · intro hmem
    have h := ((C7_test_mode_filter [_, _] _ (fun _ => "R") "CODE" "Set" [] "t").2.1
      rfl _).mp hmem
    rcases h with ⟨-, test_file, htf, hin⟩
    have : test_file = "repo/file.py" := by
      have := htf
      simp [mkCodeReviewConfig, pySplitComma, splitCommaList] at this
      exact this.2
    subst this
    exact absurd hin (by decide)
  · rw [(C7_test_mode_filter [_, _] _ (fun _ => "R") "CODE" "Set" [] "t").2.2.1]
    simp

/-- C8: `AnthropicClient.create_message` propagates an API failure to the
caller, and a successful call whose response body yields no text (empty
content array or first block without text) returns the empty string — a
success never becomes an error, it is `""` or the extracted text. -/
theorem C8_create_message_outcomes :
    (∀ msg, create_message (ApiOutcome.failure msg) = Except.error msg) ∧
    (∀ content, extract_response_text content = none →
        create_message (ApiOutcome.success content) = Except.ok "") ∧
    (∀ content text, extract_response_text content = some text →
        create_message (ApiOutcome.success content) = Except.ok text) ∧
    (∀ content, ∃ text, create_message (ApiOutcome.success content) = Except.ok text) := by
  refine ⟨fun msg => rfl, fun content h => ?_, fun content text h => ?_, fun content => ?_⟩
  · simp [create_message, h]
  · simp [create_message, h]
  · cases h : extract_response_text content with
    | none => exact ⟨"", by simp [create_message, h]⟩
    | some text => exact ⟨text, by simp [create_message, h]⟩

/-- Witness for C8: a raised API error propagates; an empty content array and
a text-less first block both yield `""`; a well-formed body yields its text. -/
theorem C8_witness :
    create_message (ApiOutcome.failure "rate limited") = Except.error "rate limited" ∧
    create_message (ApiOutcome.success []) = Except.ok "" ∧
    create_message (ApiOutcome.success [{ text := none }]) = Except.ok "" ∧
    create_message (ApiOutcome.success [{ text := some "report text" }])
      = Except.ok "report text" :=
  ⟨C8_create_message_outcomes.1 "rate limited",
   C8_create_message_outcomes.2.1 [] rfl,
   C8_create_message_outcomes.2.1 [{ text := none }] rfl,
   C8_create_message_outcomes.2.2.1 [{ text := some "report text" }] "report text" rfl⟩

/-- C3 (counterexample): the claim says re-running the evaluator on identical
standards, codebase and model response yields byte-identical combined report
text on every run.  The header interpolates `datetime.now()` into the `Date:`
line, so two runs at different wall-clock times differ. -/
theorem C3_counterexample :
    check_compliance_text (fun _ => "REPORT") "codebase text"
        [{ id := "abc", standard_set_id := "set1", text := "Code should follow PEP 8",
           repository_path := "p", classification_ids := none }]
        "Security" [] "01 January 2025 10:00:00" (mkCodeReviewConfig none none)
      ≠ check_compliance_text (fun _ => "REPORT") "codebase text"
        [{ id := "abc", standard_set_id := "set1", text := "Code should follow PEP 8",
           repository_path := "p", classification_ids := none }]
        "Security" [] "01 January 2025 10:00:01" (mkCodeReviewConfig none none) := by
  decide

/-- C3 (amended): the combined report text factors as a fixed prefix, the
interpolated generation timestamp, and a body that does not depend on the
clock; so two runs on the same standards, codebase and deterministic model
response are byte-identical exactly when the formatted timestamp is also the
same, and differ only in the `Date:` field otherwise. -/
theorem C3_deterministic_given_timestamp (model : String → String)
    (codebase_content : String) (standards : List Standard)
    (standard_set_name : String) (classification_names : List String)
    (config : CodeReviewConfig) :
    ∃ body, ∀ current_time,
      check_compliance_text model codebase_content standards standard_set_name
          classification_names current_time config
        = ("# " ++ standard_set_name ++ " Code Review\nDate: ") ++ current_time ++ body := by
  refine ⟨("\nMatched Classifications: " ++
      (if classification_names.isEmpty then "None"
       else String.intercalate ", " classification_names) ++ "\n\n") ++
    (String.intercalate "\n\n"
      (process_standards model (filter_standards standards config) codebase_content) ++
     "\n\n## Specific Recommendations\n\n"), fun current_time => ?_⟩
  unfold check_compliance_text generate_report_header
  simp [string_append_assoc]

/-- Exclusion rule as the claim words it (for comparison with the source rule
`isExcludedFile`): a file is excluded when it matches one of the excluded
*extensions* or equals one of the excluded *exact filenames*. -/
def claimExcludedFile (file : String) : Bool :=
  [".png", ".jpg", ".jpeg", ".gif", ".pdf", ".zip"].any (fun ext => pyEndsWith file ext) ||
    ["package-lock.json", "yarn.lock", "pnpm-lock.yaml", "poetry.lock", "Pipfile.lock",
     "composer.lock", "Gemfile.lock", "cargo.lock", "packages.lock.json"].any
      (fun exact => file == exact)

/-- C6 (counterexample): a file named `my_yarn.lock` matches none of the
excluded extensions and none of the excluded exact filenames, decodes as text,
yet its content is absent from the flattened artifact — the source excludes by
`endswith` over *every* denylist entry, including the lock filenames. -/
theorem C6_counterexample :
    claimExcludedFile "my_yarn.lock" = false ∧
    flatten_repository [FsEntry.file "my_yarn.lock" (some "lock file content")] = "" := by
  refine ⟨by decide, ?_⟩
  have h : isExcludedFile "my_yarn.lock" = true := by decide
  simp [flatten_repository, flattenFiles, flattenDirs, fileChunk, h, string_append_empty]

/-- C6 (amended): in the flattened artifact (1) an excluded directory is pruned
before being descended into, so its whole subtree contributes nothing; (2) a
file whose *name ends with* any denylist entry — extension or lock filename,
so e.g. `my_yarn.lock` as well as `yarn.lock` — contributes nothing; (3) every
walked non-excluded file that decodes as text appears verbatim, preceded by a
marker line with its relative path; (4) a non-excluded file that fails to
decode is skipped with a warning, not a failure: only its already-written
marker line remains. -/
theorem C6_flatten_exclusions (entries : List FsEntry) (rel name content : String)
    (children rest : List FsEntry) (oc : Option String) :
    (name ∈ EXCLUDED_DIRS →
      flattenDirs rel (FsEntry.dir name children :: rest) = flattenDirs rel rest) ∧
    (isExcludedFile name = true →
      flattenFiles rel (FsEntry.file name oc :: rest) = flattenFiles rel rest) ∧
    ((rel, name, some content) ∈ walk entries → isExcludedFile name = false →
      ∃ pre post, flatten_repository entries
        = pre ++ ("\n# File: " ++ (rel ++ name) ++ "\n" ++ content ++ "\n") ++ post) ∧
    (isExcludedFile name = false →
      flattenFiles rel (FsEntry.file name none :: rest)
        = ("\n# File: " ++ (rel ++ name) ++ "\n") ++ flattenFiles rel rest) := by
  refine ⟨fun h => ?_, fun h => ?_, fun hmem hexc => ?_, fun h => ?_⟩
  · simp [flattenDirs, h, string_empty_append]
  · simp [flattenFiles, fileChunk, h, string_empty_append]
  · obtain ⟨l₁, l₂, hsplit⟩ := List.append_of_mem hmem
    refine ⟨concatStrs (l₁.map chunkOf), concatStrs (l₂.map chunkOf), ?_⟩
    rw [flatten_repository_eq_walk, hsplit]
    simp only [List.map_append, List.map_cons, concatStrs_append, concatStrs]
    rw [show chunkOf (rel, name, some content)
        = "\n# File: " ++ (rel ++ name) ++ "\n" ++ content ++ "\n" from by
      simp [chunkOf, fileChunk, hexc]]
    simp [string_append_assoc]
  · simp [flattenFiles, fileChunk, h]

/-- Witness for C6 (amended): on a concrete tree with a pruned `.git`
directory, an excluded lock file, a decodable source file in a subdirectory
and an undecodable file, the artifact is exactly the two marker chunks, and
the included file's marker plus verbatim content occur in it. -/
theorem C6_witness :
    flatten_repository
        [FsEntry.file "yarn.lock" (some "locked"),
         FsEntry.dir ".git" [FsEntry.file "config" (some "GITCONF")],
         FsEntry.dir "sub" [FsEntry.file "b.py" (some "code2"),
                            FsEntry.file "bad.bin" none]]
      = "\n# File: sub/b.py\ncode2\n\n# File: sub/bad.bin\n" ∧
    ∃ pre post,
      flatten_repository
          [FsEntry.file "yarn.lock" (some "locked"),
           FsEntry.dir ".git" [FsEntry.file "config" (some "GITCONF")],
           FsEntry.dir "sub" [FsEntry.file "b.py" (some "code2"),
                              FsEntry.file "bad.bin" none]]
        = pre ++ ("\n# File: " ++ ("sub/" ++ "b.py") ++ "\n" ++ "code2" ++ "\n") ++ post := by
  constructor
  · have h₁ : isExcludedFile "yarn.lock" = true := by decide
    have h₂ : isExcludedFile "b.py" = false := by decide
    have h₃ : isExcludedFile "bad.bin" = false := by decide
    have h₄ : (".git" : String) ∈ EXCLUDED_DIRS := by decide
    have h₅ : ("sub" : String) ∉ EXCLUDED_DIRS := by decide
    simp [flatten_repository, flattenFiles, flattenDirs, fileChunk, h₁, h₂, h₃, h₄, h₅,
      string_empty_append, string_append_empty]
  · refine (C6_flatten_exclusions _ "sub/" "b.py" "code2" [] [] none).2.2.1 ?_ (by decide)
    have h₄ : (".git" : String) ∈ EXCLUDED_DIRS := by decide
    have h₅ : ("sub" : String) ∉ EXCLUDED_DIRS := by decide
    simp [walk, walkFiles, walkDirs, h₄, h₅]

/-- C1: when the stages outside the per-standard-set loop succeed, the run
returns normally, the review's final status write is `COMPLETED` (never
`FAILED`) with `compliance_reports` containing exactly one entry per standard
set whose evaluation succeeded, in order; and each per-set failure — invalid id
format, missing standard-set record, empty standards selection, or a
compliance-evaluation failure — only skips that one set (its outcome is a
function of that set's id alone, so the remaining sets are unaffected). -/
theorem C1_partial_failure_containment (env : OrchestratorEnv) (review_id : String)
    (standard_sets : List String) (codebase_file : String) (matched : List String)
    (hdb : env.db_ok = true) (hacq : env.acquisition = Except.ok codebase_file)
    (hcls : env.classification = Except.ok matched) :
    process_code_review env review_id standard_sets
      = (Except.ok (),
         [(ReviewStatus.in_progress, none),
          (ReviewStatus.completed,
           some (standard_sets.filterMap (fun sid =>
             (process_standard_set env review_id matched
               (os_path_parent codebase_file) sid).toReport)))]) ∧
    (∀ sid, isValidObjectId sid = false →
        process_standard_set env review_id matched (os_path_parent codebase_file) sid
          = SetOutcome.skipInvalidId) ∧
    (∀ sid, isValidObjectId sid = true → env.standard_sets_find_one sid = none →
        process_standard_set env review_id matched (os_path_parent codebase_file) sid
          = SetOutcome.skipNotFound) ∧
    (∀ sid nm, isValidObjectId sid = true → env.standard_sets_find_one sid = some nm →
        env.standards_catalog.filter (matchesStandardsQuery sid matched) = [] →
        process_standard_set env review_id matched (os_path_parent codebase_file) sid
          = SetOutcome.skipNoStandards) ∧
    (∀ sid nm msg, isValidObjectId sid = true → env.standard_sets_find_one sid = some nm →
        env.standards_catalog.filter (matchesStandardsQuery sid matched) ≠ [] →
        env.evalOutcome sid = Except.error msg →
        process_standard_set env review_id matched (os_path_parent codebase_file) sid
          = SetOutcome.skipEvalError msg) := by
  refine ⟨?_, fun sid h => ?_, fun sid h hfind => ?_, fun sid nm h hfind hempty => ?_,
    fun sid nm msg h hfind hne heval => ?_⟩
  · simp only [process_code_review, hdb, Bool.not_true, Bool.false_eq_true, if_false, hacq,
      hcls, List.filterMap_map]
    rfl
  · simp [process_standard_set, ensure_object_id, h]
  · simp [process_standard_set, ensure_object_id, h, hfind]
  · simp [process_standard_set, ensure_object_id, h, hfind, hempty]
  · simp [process_standard_set, ensure_object_id, h, hfind, heval, List.isEmpty_iff, hne]

/-- Orchestrator environment for the C1 witness: three standard sets exist;
set `bbbb…` has a matching standard but its evaluation fails, set `cccc…`
selects no standards, set `aaaa…` evaluates successfully. -/
def c1Env : OrchestratorEnv :=
  { db_ok := true
    acquisition := Except.ok "/app/data/codebase/example.txt"
    classification := Except.ok ["c1"]
    standard_sets_find_one := fun id =>
      if id == "aaaaaaaaaaaaaaaaaaaaaaaa" then some (some "Security")
      else if id == "bbbbbbbbbbbbbbbbbbbbbbbb" then some (some "Quality")
      else if id == "cccccccccccccccccccccccc" then some (some "Empty")
      else none
    standards_catalog :=
      [{ id := "s1", standard_set_id := "aaaaaaaaaaaaaaaaaaaaaaaa", text := "T1",
         repository_path := "p1", classification_ids := none },
       { id := "s2", standard_set_id := "bbbbbbbbbbbbbbbbbbbbbbbb", text := "T2",
         repository_path := "p2", classification_ids := some ["c1"] }]
    evalOutcome := fun id =>
      if id == "bbbbbbbbbbbbbbbbbbbbbbbb" then Except.error "model call failed"
      else Except.ok "OK-REPORT" }

/-- Witness for C1: five requested sets — invalid id, unknown id, empty
selection, failing evaluation, success — produce a `COMPLETED` review whose
reports list has exactly the one successful set's entry. -/
theorem C1_witness :
    process_code_review c1Env "rev1"
        ["not-an-object-id", "dddddddddddddddddddddddd", "cccccccccccccccccccccccc",
         "bbbbbbbbbbbbbbbbbbbbbbbb", "aaaaaaaaaaaaaaaaaaaaaaaa"]
      = (Except.ok (),
         [(ReviewStatus.in_progress, none),
          (ReviewStatus.completed,
           some [{ standard_set_name := "Security",
                   file := "/app/data/codebase/rev1-Security.md",
                   report := "OK-REPORT" }])]) := by
  rw [(C1_partial_failure_containment c1Env "rev1"
    ["not-an-object-id", "dddddddddddddddddddddddd", "cccccccccccccccccccccccc",
     "bbbbbbbbbbbbbbbbbbbbbbbb", "aaaaaaaaaaaaaaaaaaaaaaaa"]
    "/app/data/codebase/example.txt" ["c1"] rfl rfl rfl).1]
  rfl

/-- C2: once the repository handle is bound, a failure of repository
acquisition (clone/flatten) or of classification matching makes the run write
`FAILED` with no `compliance_reports` attached as its final status, and
re-raise the error wrapped as `ProcessingError` with the original error text
preserved inside the wrapped message. -/
theorem C2_fatal_failures (env : OrchestratorEnv) (review_id : String)
    (standard_sets : List String) (msg : String) (hdb : env.db_ok = true)
    (h : env.acquisition = Except.error msg ∨
         ∃ f, env.acquisition = Except.ok f ∧ env.classification = Except.error msg) :
    process_code_review env review_id standard_sets
      = (Except.error (PyError.processingError ("Failed to process code review: " ++ msg)),
         [(ReviewStatus.in_progress, none), (ReviewStatus.failed, none)]) := by
  rcases h with h | ⟨f, hf, hc⟩
  · simp [process_code_review, hdb, h]
  · simp [process_code_review, hdb, hf, hc]

/-- Orchestrator environment for the C2 witness: the clone fails. -/
def c2EnvClone : OrchestratorEnv :=
  { db_ok := true
    acquisition := Except.error "clone failed: network unreachable"
    classification := Except.ok []
    standard_sets_find_one := fun _ => none
    standards_catalog := []
    evalOutcome := fun _ => Except.ok "" }

/-- Orchestrator environment for the C2 witness: the clone succeeds and the
classification stage fails. -/
def c2EnvClassify : OrchestratorEnv :=
  { db_ok := true
    acquisition := Except.ok "/app/data/codebase/example.txt"
    classification := Except.error "classification model unavailable"
    standard_sets_find_one := fun _ => none
    standards_catalog := []
    evalOutcome := fun _ => Except.ok "" }

/-- Witness for C2: both an acquisition failure and a classification failure
end the run at `FAILED` with no reports and a wrapping `ProcessingError`. -/
theorem C2_witness :
    process_code_review c2EnvClone "rev2" ["aaaaaaaaaaaaaaaaaaaaaaaa"]
      = (Except.error (PyError.processingError
          ("Failed to process code review: " ++ "clone failed: network unreachable")),
         [(ReviewStatus.in_progress, none), (ReviewStatus.failed, none)]) ∧
    process_code_review c2EnvClassify "rev2" ["aaaaaaaaaaaaaaaaaaaaaaaa"]
      = (Except.error (PyError.processingError
          ("Failed to process code review: " ++ "classification model unavailable")),
         [(ReviewStatus.in_progress, none), (ReviewStatus.failed, none)]) :=
  ⟨C2_fatal_failures c2EnvClone "rev2" _ _ rfl (Or.inl rfl),
   C2_fatal_failures c2EnvClassify "rev2" _ _ rfl
     (Or.inr ⟨"/app/data/codebase/example.txt", rfl, rfl⟩)⟩

/-- C10: if obtaining the database connection or constructing the repository
handle raises — i.e. failure occurs before the local `repo` is bound — the
`except` handler itself fails with an unbound-local error: no status update is
ever written (in particular the review is never set to `FAILED`) and the
escaping error is not a `ProcessingError`; whereas once `repo` is bound, every
run's final status write is `COMPLETED` or `FAILED`. -/
theorem C10_unbound_repo_in_handler :
    (∀ env : OrchestratorEnv, ∀ review_id standard_sets, env.db_ok = false →
        process_code_review env review_id standard_sets
          = (Except.error (PyError.unboundLocalError
              "cannot access local variable repo where it is not associated with a value"),
             [])) ∧
    (∀ env : OrchestratorEnv, ∀ review_id standard_sets msg, env.db_ok = false →
        (process_code_review env review_id standard_sets).1
          ≠ Except.error (PyError.processingError msg)) ∧
    (∀ env : OrchestratorEnv, ∀ review_id standard_sets, env.db_ok = true →
        ∃ upd, ((process_code_review env review_id standard_sets).2).getLast? = some upd ∧
          (upd.1 = ReviewStatus.completed ∨ upd.1 = ReviewStatus.failed)) := by
  refine ⟨fun env rid sets h => by simp [process_code_review, h],
    fun env rid sets msg h => by simp [process_code_review, h],
    fun env rid sets h => ?_⟩
  cases hacq : env.acquisition with
  | error msg => exact ⟨(ReviewStatus.failed, none), by simp [process_code_review, h, hacq], Or.inr rfl⟩
  | ok f =>
    cases hcls : env.classification with
    | error msg =>
      exact ⟨(ReviewStatus.failed, none), by simp [process_code_review, h, hacq, hcls], Or.inr rfl⟩
    | ok matched =>
      refine ⟨(ReviewStatus.completed,
        some ((sets.map (process_standard_set env rid matched (os_path_parent f))).filterMap
          SetOutcome.toReport)), ?_, Or.inl rfl⟩
      simp [process_code_review, h, hacq, hcls]

/-- Orchestrator environment for the C10 witness: `get_database()` (or the
`CodeReviewRepository` constructor) raises before `repo` is bound. -/
def c10Env : OrchestratorEnv :=
  { db_ok := false
    acquisition := Except.error "never reached"
    classification := Except.ok []
    standard_sets_find_one := fun _ => none
    standards_catalog := []
    evalOutcome := fun _ => Except.ok "" }

/-- Witness for C10: with the database connection failing, no status is ever
written and the escaping error is the unbound-local error; with it succeeding,
the final write is `COMPLETED` or `FAILED`. -/
theorem C10_witness :
    process_code_review c10Env "rev3" ["aaaaaaaaaaaaaaaaaaaaaaaa"]
      = (Except.error (PyError.unboundLocalError
          "cannot access local variable repo where it is not associated with a value"),
         []) ∧
    ∃ upd, ((process_code_review c2EnvClone "rev2" []).2).getLast? = some upd ∧
      (upd.1 = ReviewStatus.completed ∨ upd.1 = ReviewStatus.failed) :=
  ⟨C10_unbound_repo_in_handler.1 c10Env "rev3" _ rfl,
   C10_unbound_repo_in_handler.2.2 c2EnvClone "rev2" [] rfl⟩

end CodeReviewApi
